import Mathlib

/-
Verification of the authed.online combined server (Express backend + Discord
bot).  The development shallowly embeds the two operations the specification
is about:

  * the OAuth verification handler (POST /api/auth/discord), including the
    avatar-URL derivation, the token store write, and the two detached
    side effects (role grant, webhook logging);
  * the batch admission operation (the /pull slash-command handler), i.e.
    pullUserToGuild and the aggregation loop over all stored users.

Network interactions are modelled as explicit parameters describing the
response the remote end produces; JavaScript truthiness of strings, the
behaviour of parseInt/% on NaN, and the || defaulting idiom are modelled
explicitly.  The in-memory Map userTokens is modelled as an association
list threaded through every operation, so that frame properties (the store
being read but never written by the batch) are provable rather than
assumed.
-/

/-- JS string truthiness for optional string values: undefined/null and the
empty string are falsy. -/
def strTruthy : Option String → Option String
  | none => none
  | some s => if s = "" then none else some s

/-- The JS idiom a || b for an optional string a with fallback b. -/
def jsOr (o : Option String) (dflt : String) : String :=
  match strTruthy o with
  | some s => s
  | none => dflt

/-- A JS number that is either an integer or NaN (the only values produced
by parseInt on the inputs of interest). -/
inductive JSNum where
  | num (i : Int)
  | nan
deriving DecidableEq, Repr

/-- Numeric value of a list of decimal digit characters. -/
def digitsVal (l : List Char) : Nat :=
  l.foldl (fun a c => a * 10 + (c.toNat - 48)) 0

/-- parseInt on a string: skip leading spaces, optional sign, then the
longest run of decimal digits; NaN when that run is empty. -/
def parseIntLeading (s : String) : JSNum :=
  let cs := s.toList.dropWhile (fun c => c = ' ')
  match cs with
  | '-' :: t =>
      let ds := t.takeWhile Char.isDigit
      if ds.isEmpty then JSNum.nan else JSNum.num (-(digitsVal ds : Int))
  | '+' :: t =>
      let ds := t.takeWhile Char.isDigit
      if ds.isEmpty then JSNum.nan else JSNum.num (digitsVal ds : Int)
  | t =>
      let ds := t.takeWhile Char.isDigit
      if ds.isEmpty then JSNum.nan else JSNum.num (digitsVal ds : Int)

/-- parseInt applied to a possibly-undefined string (parseInt(undefined)
is NaN). -/
def jsParseInt : Option String → JSNum
  | none => JSNum.nan
  | some s => parseIntLeading s

/-- The JS remainder operator: NaN propagates, otherwise truncating
remainder (sign of the dividend). -/
def jsRem (n : JSNum) (m : Int) : JSNum :=
  match n with
  | JSNum.nan => JSNum.nan
  | JSNum.num i => JSNum.num (Int.tmod i m)

/-- JS number-to-string coercion inside a template literal. -/
def jsNumToString : JSNum → String
  | JSNum.nan => "NaN"
  | JSNum.num i => toString i

/-- The value stored in userTokens for one user. -/
structure TokenData where
  access_token : String
  refresh_token : String
  expires_at : Nat
deriving DecidableEq, Repr

/-- The in-memory Map userTokens (userId -> token data), as an association
list in insertion order. -/
abbrev Store := List (String × TokenData)

/-- Map.get: the value stored under a key, if any. -/
def storeGet (s : Store) (k : String) : Option TokenData :=
  match s with
  | [] => none
  | (k', v) :: rest => if k' = k then some v else storeGet rest k

/-- Map.set: replace the entry in place when the key is present, append
otherwise. -/
def storeSet (s : Store) (k : String) (v : TokenData) : Store :=
  match s with
  | [] => [(k, v)]
  | (k', v') :: rest => if k' = k then (k, v) :: rest else (k', v') :: storeSet rest k v

/-- Array.from(userTokens.keys()). -/
def storeKeys (s : Store) : List String := s.map (fun e => e.1)

/-- The membership-gateway response to the PUT guild-member call made by
pullUserToGuild: an ok response with its status code, a non-ok response
with the parsed error message (when a truthy .message field was present)
and the status text, or a thrown network error. -/
inductive FetchResult where
  | ok (status : Nat)
  | notOk (errMessage : Option String) (statusText : String)
  | netThrown (msg : String)
deriving DecidableEq, Repr

/-- The three values pullUserToGuild can return. -/
inductive PullResult where
  | added
  | already_member
  | success
deriving DecidableEq, Repr

/-- pullUserToGuild(userId): read the stored token, reject when absent or
expired (before any network call), otherwise issue the gateway call and
map its response.  Returns the (unchanged) store, the thrown error or
returned value, and the number of network calls issued. -/
def pullUserToGuild (store : Store) (now : Nat) (userId : String) (net : FetchResult) :
    Store × Except String PullResult × Nat :=
  match storeGet store userId with
  | none => (store, Except.error "No access token stored for this user", 0)
  | some tokenData =>
    if tokenData.expires_at ≤ now then
      (store, Except.error "Access token expired", 0)
    else
      match net with
      | FetchResult.netThrown m => (store, Except.error m, 1)
      | FetchResult.notOk errMessage statusText =>
          (store, Except.error (jsOr errMessage ("Failed to pull user: " ++ statusText)), 1)
      | FetchResult.ok status =>
          if status = 201 then (store, Except.ok PullResult.added, 1)
          else if status = 204 then (store, Except.ok PullResult.already_member, 1)
          else (store, Except.ok PullResult.success, 1)

/-- The aggregated results object of the /pull handler. -/
structure BatchResult where
  total : Nat
  added : Nat
  already_member : Nat
  failed : Nat
  errors : List String
deriving DecidableEq, Repr

/-- The reply the /pull handler edits in: either a plain text message or
the results embed built from a BatchResult. -/
inductive PullReply where
  | message (content : String)
  | summary (r : BatchResult)
deriving DecidableEq, Repr

/-- The per-user loop of the /pull handler: for each userId, call
pullUserToGuild inside try/catch; 'added' and 'already_member' bump their
counters, any thrown error bumps failed and appends the formatted message,
any other return value changes nothing. -/
def pullLoop (now : Nat) (net : String → FetchResult) :
    Store → List String → BatchResult → Store × BatchResult × Nat
  | store, [], acc => (store, acc, 0)
  | store, uid :: rest, acc =>
    let step := pullUserToGuild store now uid (net uid)
    let acc1 :=
      match step.2.1 with
      | Except.ok PullResult.added => { acc with added := acc.added + 1 }
      | Except.ok PullResult.already_member =>
          { acc with already_member := acc.already_member + 1 }
      | Except.ok PullResult.success => acc
      | Except.error m =>
          { acc with failed := acc.failed + 1,
                     errors := acc.errors ++ ["<@" ++ uid ++ ">: " ++ m] }
    let out := pullLoop now net step.1 rest acc1
    (out.1, out.2.1, step.2.2 + out.2.2)

/-- The body of the /pull handler after the authorization check: snapshot
the stored user ids; when empty, edit in the dedicated no-users message;
otherwise run the loop and edit in the results embed.  Returns the store,
the reply, and the number of gateway calls issued. -/
def runPull (store : Store) (now : Nat) (net : String → FetchResult) :
    Store × PullReply × Nat :=
  let storedUsers := storeKeys store
  if storedUsers.length = 0 then
    (store, PullReply.message "⚠️ No users have verified yet. There are no users to pull.", 0)
  else
    let init : BatchResult :=
      { total := storedUsers.length, added := 0, already_member := 0,
        failed := 0, errors := [] }
    let out := pullLoop now net store storedUsers init
    (out.1, PullReply.summary out.2.1, out.2.2)

/-- The outcome of one user inside a run, as the loop observes it. -/
def itemOutcome (store : Store) (now : Nat) (net : String → FetchResult)
    (uid : String) : Except String PullResult :=
  (pullUserToGuild store now uid (net uid)).2.1

/-- The error-list entry one user contributes, if any. -/
def itemError (store : Store) (now : Nat) (net : String → FetchResult)
    (uid : String) : Option String :=
  match itemOutcome store now net uid with
  | Except.error m => some ("<@" ++ uid ++ ">: " ++ m)
  | Except.ok _ => none

/-- Outcome was 'added'. -/
def isAdded : Except String PullResult → Bool
  | Except.ok PullResult.added => true
  | _ => false

/-- Outcome was 'already_member'. -/
def isAlready : Except String PullResult → Bool
  | Except.ok PullResult.already_member => true
  | _ => false

/-- Outcome was the catch-all 'success' (an ok status other than the two
documented ones). -/
def isOtherSuccess : Except String PullResult → Bool
  | Except.ok PullResult.success => true
  | _ => false

/-- Number of ids in the list whose outcome satisfies the predicate. -/
def countOutcome (store : Store) (now : Nat) (net : String → FetchResult)
    (p : Except String PullResult → Bool) (ids : List String) : Nat :=
  (ids.filter (fun uid => p (itemOutcome store now net uid))).length

/-- Network calls one user's pull issues. -/
def itemCalls (store : Store) (now : Nat) (net : String → FetchResult)
    (uid : String) : Nat :=
  (pullUserToGuild store now uid (net uid)).2.2

/-- Total network calls a list of users issues. -/
def callsOf (store : Store) (now : Nat) (net : String → FetchResult)
    (ids : List String) : Nat :=
  (ids.map (itemCalls store now net)).sum

/-- The provider's response to the token-exchange POST: a parsed success
payload, a non-ok response carrying the parsed error JSON fields, or a
thrown network error. -/
inductive ExchangeResult where
  | success (access_token refresh_token : String) (expires_in : Nat)
  | failure (error_description : Option String) (error : Option String)
  | thrown (msg : String)
deriving DecidableEq, Repr

/-- The profile data fetched from the provider on success. -/
structure UserData where
  id : String
  username : String
  discriminator : Option String
  email : Option String
  avatar : Option String
  verified : Bool
deriving DecidableEq, Repr

/-- The provider's response to the GET users me call. -/
inductive UserFetchResult where
  | success (ud : UserData)
  | failure
  | thrown (msg : String)
deriving DecidableEq, Repr

/-- The gateway's response to the PUT role call made by assignVerifiedRole. -/
inductive RoleResp where
  | ok2xx
  | notOk (status : Nat) (message : Option String) (statusText : String)
  | netThrown (msg : String)
deriving DecidableEq, Repr

/-- assignVerifiedRole: throws a status-specific error on 404/403/401,
a generic one otherwise; succeeds on an ok response. -/
def assignVerifiedRole : RoleResp → Except String Unit
  | RoleResp.ok2xx => Except.ok ()
  | RoleResp.netThrown m => Except.error m
  | RoleResp.notOk s msg st =>
      if s = 404 then Except.error "User is not in the Discord server"
      else if s = 403 then Except.error "Bot lacks permission to assign roles"
      else if s = 401 then Except.error "Bot token is invalid"
      else Except.error ("Failed to assign role: " ++ jsOr msg st)

/-- The webhook's response to sendToLogger.  The function only rethrows
when the fetch itself throws; a non-ok response is merely logged. -/
inductive WebhookResp where
  | noURL
  | okResp
  | notOk (status : Nat) (body : String)
  | netThrown (msg : String)
deriving DecidableEq, Repr

/-- sendToLogger outcome as seen by its detached error handler. -/
def sendToLogger : WebhookResp → Except String Unit
  | WebhookResp.netThrown m => Except.error m
  | _ => Except.ok ()

/-- The avatar field of the user object built by the handler: the CDN URL
from the user id and the asset id when the fetched avatar is truthy,
otherwise the default-embed URL indexed by parseInt(discriminator) % 5. -/
def deriveAvatar (ud : UserData) : String :=
  match strTruthy ud.avatar with
  | some a => "https://cdn.discordapp.com/avatars/" ++ ud.id ++ "/" ++ a ++ ".png"
  | none =>
      "https://cdn.discordapp.com/embed/avatars/" ++
        jsNumToString (jsRem (jsParseInt ud.discriminator) 5) ++ ".png"

/-- The user object embedded in the success response body. -/
structure UserSummary where
  id : String
  username : String
  avatar : String
  email : Option String
deriving DecidableEq, Repr

/-- The HTTP response of the auth endpoint. -/
inductive AuthResponse where
  | errorResp (status : Nat) (error : String)
  | successResp (user : UserSummary)
deriving DecidableEq, Repr

/-- Everything one run of the auth handler produces: the store after the
run, the HTTP response, the number of provider calls issued, and the
outcomes of the two detached side effects (none when never scheduled). -/
structure AuthStep where
  store : Store
  response : AuthResponse
  providerCalls : Nat
  roleOutcome : Option (Except String Unit)
  webhookOutcome : Option (Except String Unit)
deriving Repr

/-- The POST /api/auth/discord handler: reject a falsy code with 400
before any provider call; exchange the code (400 with the provider's
error description on rejection); fetch the profile (400 on failure);
build the user object; store the tokens when the access token is truthy;
schedule the role grant and the webhook log without awaiting them; and
respond with the four-field user summary.  A thrown fetch lands in the
outer catch as a 500. -/
def authDiscord (store : Store) (now : Nat) (code : Option String)
    (exch : ExchangeResult) (uf : UserFetchResult) (rr : RoleResp)
    (wr : WebhookResp) : AuthStep :=
  match strTruthy code with
  | none =>
      { store := store, response := AuthResponse.errorResp 400 "No authorization code provided",
        providerCalls := 0, roleOutcome := none, webhookOutcome := none }
  | some _ =>
    match exch with
    | ExchangeResult.thrown m =>
        { store := store,
          response := AuthResponse.errorResp 500
            (jsOr (some m) "Internal server error during authentication"),
          providerCalls := 1, roleOutcome := none, webhookOutcome := none }
    | ExchangeResult.failure ed e =>
        { store := store,
          response := AuthResponse.errorResp 400
            (jsOr ed (jsOr e "Failed to exchange authorization code")),
          providerCalls := 1, roleOutcome := none, webhookOutcome := none }
    | ExchangeResult.success access_token refresh_token expires_in =>
      match uf with
      | UserFetchResult.thrown m =>
          { store := store,
            response := AuthResponse.errorResp 500
              (jsOr (some m) "Internal server error during authentication"),
            providerCalls := 2, roleOutcome := none, webhookOutcome := none }
      | UserFetchResult.failure =>
          { store := store,
            response := AuthResponse.errorResp 400 "Failed to fetch Discord user data",
            providerCalls := 2, roleOutcome := none, webhookOutcome := none }
      | UserFetchResult.success ud =>
          let store1 :=
            if access_token ≠ "" then
              storeSet store ud.id
                { access_token := access_token, refresh_token := refresh_token,
                  expires_at := now + expires_in * 1000 }
            else store
          { store := store1,
            response := AuthResponse.successResp
              { id := ud.id, username := ud.username,
                avatar := deriveAvatar ud, email := ud.email },
            providerCalls := 2,
            roleOutcome := some (assignVerifiedRole rr),
            webhookOutcome := some (sendToLogger wr) }

/-- pullUserToGuild only reads the store: its store component is the input
store in every branch. -/
theorem pullUserToGuild_fst (store : Store) (now : Nat) (uid : String)
    (net : FetchResult) : (pullUserToGuild store now uid net).1 = store := by
  unfold pullUserToGuild
  repeat' split
  all_goals rfl

/-- Full characterisation of the /pull loop: starting from any accumulator,
the loop leaves the store untouched, never changes total, adds to each
counter the number of ids with the matching outcome over the WHOLE list,
appends exactly the formatted error of every failing id in order, and
issues exactly the per-item network calls. -/
theorem pullLoop_spec (now : Nat) (net : String → FetchResult) (store : Store)
    (ids : List String) : ∀ acc : BatchResult,
    pullLoop now net store ids acc =
      (store,
       { total := acc.total,
         added := acc.added + countOutcome store now net isAdded ids,
         already_member := acc.already_member + countOutcome store now net isAlready ids,
         failed := acc.failed + (ids.filterMap (itemError store now net)).length,
         errors := acc.errors ++ ids.filterMap (itemError store now net) },
       callsOf store now net ids) := by
  induction ids with
  | nil =>
      intro acc
      simp [pullLoop, countOutcome, callsOf]
  | cons uid rest ih =>
      intro acc
      have hfst : (pullUserToGuild store now uid (net uid)).1 = store :=
        pullUserToGuild_fst store now uid (net uid)
      have hout : (pullUserToGuild store now uid (net uid)).2.1 =
          itemOutcome store now net uid := rfl
      simp only [pullLoop, hfst, hout]
      rcases ho : itemOutcome store now net uid with m | pr
      · rw [ih]
        simp [countOutcome, itemError, callsOf, itemCalls, ho, List.filter_cons,
          List.filterMap_cons, isAdded, isAlready, isOtherSuccess]
        try omega
      · cases pr <;>
        · rw [ih]
          simp [countOutcome, itemError, callsOf, itemCalls, ho, List.filter_cons,
            List.filterMap_cons, isAdded, isAlready, isOtherSuccess]
          try omega

/-- Every id has exactly one of the four outcomes, so the three counters
plus the error count partition the snapshot. -/
theorem outcome_partition (store : Store) (now : Nat) (net : String → FetchResult)
    (ids : List String) :
    countOutcome store now net isAdded ids + countOutcome store now net isAlready ids +
      countOutcome store now net isOtherSuccess ids +
      (ids.filterMap (itemError store now net)).length = ids.length := by
  induction ids with
  | nil => simp [countOutcome]
  | cons uid rest ih =>
      rcases ho : itemOutcome store now net uid with m | pr
      · simp only [countOutcome, itemError, ho, List.filter_cons, List.filterMap_cons,
          isAdded, isAlready, isOtherSuccess, List.length_cons] at ih ⊢
        simp at ih ⊢
        omega
      · cases pr <;>
        · simp only [countOutcome, itemError, ho, List.filter_cons, List.filterMap_cons,
            isAdded, isAlready, isOtherSuccess, List.length_cons] at ih ⊢
          simp at ih ⊢
          omega

/-- When a run replies with the results embed, the embedded BatchResult is
exactly the aggregate of the per-item outcomes over the whole snapshot. -/
theorem runPull_summary (store : Store) (now : Nat) (net : String → FetchResult)
    (r : BatchResult) (h : (runPull store now net).2.1 = PullReply.summary r) :
    r = { total := (storeKeys store).length,
          added := countOutcome store now net isAdded (storeKeys store),
          already_member := countOutcome store now net isAlready (storeKeys store),
          failed := ((storeKeys store).filterMap (itemError store now net)).length,
          errors := (storeKeys store).filterMap (itemError store now net) } := by
  simp only [runPull] at h
  split at h
  · simp at h
  · rw [pullLoop_spec] at h
    simp only [PullReply.summary.injEq] at h
    rw [← h]
    simp

/-- C1: the claimed invariant total == added + alreadyMember + failed fails
on the code for a success status other than the two documented ones: one
stored user whose gateway call returns an ok response with status 200 is
counted in total but in none of added, already_member, failed. -/
theorem c1_total_invariant_counterexample :
    (runPull [("u1", { access_token := "t", refresh_token := "rt", expires_at := 100 })] 0
        (fun _ => FetchResult.ok 200)).2.1 =
      PullReply.summary
        { total := 1, added := 0, already_member := 0, failed := 0, errors := [] } ∧
    (1 : Nat) ≠ 0 + 0 + 0 := by
  constructor
  · decide
  · decide

/-- C1 (amended): for every run that replies with a BatchResult,
added + alreadyMember + failed plus the number of identities whose gateway
call returned an ok status other than 201/204 equals total; in particular
total is always at least added + alreadyMember + failed, with equality
whenever every per-identity outcome is one of the documented ones. -/
theorem c1_total_invariant_amended (store : Store) (now : Nat)
    (net : String → FetchResult) (r : BatchResult)
    (h : (runPull store now net).2.1 = PullReply.summary r) :
    r.added + r.already_member + r.failed +
        countOutcome store now net isOtherSuccess (storeKeys store) = r.total ∧
    r.added + r.already_member + r.failed ≤ r.total := by
  have hr := runPull_summary store now net r h
  have hp := outcome_partition store now net (storeKeys store)
  subst hr
  dsimp only
  omega

/-- C1 witness: two stored users, one pulled with status 201 and one with
the undocumented ok status 200: added=1, alreadyMember=0, failed=0,
total=2, and the amended equation accounts for the odd one out. -/
theorem c1_total_invariant_amended_witness :
    1 + 0 + 0 + countOutcome
        [("a", { access_token := "t", refresh_token := "rt", expires_at := 100 }),
         ("b", { access_token := "t", refresh_token := "rt", expires_at := 100 })] 0
        (fun uid => if uid = "a" then FetchResult.ok 201 else FetchResult.ok 200)
        isOtherSuccess
        (storeKeys
          [("a", { access_token := "t", refresh_token := "rt", expires_at := 100 }),
           ("b", { access_token := "t", refresh_token := "rt", expires_at := 100 })]) = 2 ∧
    1 + 0 + 0 ≤ 2 :=
  c1_total_invariant_amended
    [("a", { access_token := "t", refresh_token := "rt", expires_at := 100 }),
     ("b", { access_token := "t", refresh_token := "rt", expires_at := 100 })] 0
    (fun uid => if uid = "a" then FetchResult.ok 201 else FetchResult.ok 200)
    { total := 2, added := 1, already_member := 0, failed := 0, errors := [] }
    (by decide)

/-- C2: a stored grant with expiresAt less than or equal to now is rejected
by the local check: pullUserToGuild returns the "Access token expired"
error and issues zero network calls, whatever the gateway would have
answered; and the batch loop records that identity as failed with the
descriptive message and continues with exactly the remaining identities. -/
theorem c2_expired_grant_rejected (store : Store) (now : Nat) (uid : String)
    (td : TokenData) (net : FetchResult) (netf : String → FetchResult)
    (rest : List String) (acc : BatchResult)
    (hget : storeGet store uid = some td) (hexp : td.expires_at ≤ now) :
    pullUserToGuild store now uid net = (store, Except.error "Access token expired", 0) ∧
    pullLoop now netf store (uid :: rest) acc =
      pullLoop now netf store rest
        { acc with failed := acc.failed + 1,
                   errors := acc.errors ++ ["<@" ++ uid ++ ">: " ++ "Access token expired"] } := by
  have h1 : ∀ n : FetchResult, pullUserToGuild store now uid n =
      (store, Except.error "Access token expired", 0) := by
    intro n
    unfold pullUserToGuild
    rw [hget]
    simp [hexp]
  refine ⟨h1 net, ?_⟩
  simp only [pullLoop, h1 (netf uid)]
  simp

/-- C2 witness: a grant that expired at 50, pulled at time 100, is rejected
locally with no gateway call even though the gateway would have answered
201. -/
theorem c2_expired_grant_rejected_witness :
    pullUserToGuild [("u", { access_token := "t", refresh_token := "r", expires_at := 50 })]
        100 "u" (FetchResult.ok 201) =
      ([("u", { access_token := "t", refresh_token := "r", expires_at := 50 })],
       Except.error "Access token expired", 0) :=
  (c2_expired_grant_rejected
    [("u", { access_token := "t", refresh_token := "r", expires_at := 50 })]
    100 "u" { access_token := "t", refresh_token := "r", expires_at := 50 }
    (FetchResult.ok 201) (fun _ => FetchResult.ok 201) []
    { total := 1, added := 0, already_member := 0, failed := 0, errors := [] }
    (by decide) (by decide)).1

/-- C3: a run that replies with the results embed has attempted the whole
snapshot: total is the snapshot length, added and alreadyMember count the
matching outcomes over the whole snapshot, and failed/errors are exactly
the formatted errors of every failing identity in snapshot order — a
failing identity never aborts the batch or hides a later one. -/
theorem c3_failure_isolation (store : Store) (now : Nat) (net : String → FetchResult)
    (r : BatchResult) (h : (runPull store now net).2.1 = PullReply.summary r) :
    r.total = (storeKeys store).length ∧
    r.added = countOutcome store now net isAdded (storeKeys store) ∧
    r.already_member = countOutcome store now net isAlready (storeKeys store) ∧
    r.failed = ((storeKeys store).filterMap (itemError store now net)).length ∧
    r.errors = (storeKeys store).filterMap (itemError store now net) := by
  have hr := runPull_summary store now net r h
  subst hr
  exact ⟨rfl, rfl, rfl, rfl, rfl⟩

/-- C3 witness: three identities where the middle one's gateway call throws
"Connection reset": the run yields 1 added, 1 already member, 1 failed with
that identity's message — not an aborted batch. -/
theorem c3_failure_isolation_witness :
    (3 : Nat) = (storeKeys
        [("a", { access_token := "t", refresh_token := "r", expires_at := 100 }),
         ("b", { access_token := "t", refresh_token := "r", expires_at := 100 }),
         ("c", { access_token := "t", refresh_token := "r", expires_at := 100 })]).length ∧
    (1 : Nat) = countOutcome
        [("a", { access_token := "t", refresh_token := "r", expires_at := 100 }),
         ("b", { access_token := "t", refresh_token := "r", expires_at := 100 }),
         ("c", { access_token := "t", refresh_token := "r", expires_at := 100 })] 0
        (fun uid => if uid = "b" then FetchResult.netThrown "Connection reset"
                    else if uid = "a" then FetchResult.ok 201 else FetchResult.ok 204)
        isAdded
        (storeKeys
          [("a", { access_token := "t", refresh_token := "r", expires_at := 100 }),
           ("b", { access_token := "t", refresh_token := "r", expires_at := 100 }),
           ("c", { access_token := "t", refresh_token := "r", expires_at := 100 })]) := by
  have h := c3_failure_isolation
    [("a", { access_token := "t", refresh_token := "r", expires_at := 100 }),
     ("b", { access_token := "t", refresh_token := "r", expires_at := 100 }),
     ("c", { access_token := "t", refresh_token := "r", expires_at := 100 })] 0
    (fun uid => if uid = "b" then FetchResult.netThrown "Connection reset"
                else if uid = "a" then FetchResult.ok 201 else FetchResult.ok 204)
    { total := 3, added := 1, already_member := 1, failed := 1,
      errors := ["<@b>: Connection reset"] }
    (by decide)
  exact ⟨h.1, h.2.1⟩

/-- C8: an empty store does not make the handler return a total-zero
BatchResult: the reply is not the summary embed at all. -/
theorem c8_empty_store_counterexample :
    (runPull [] 0 (fun _ => FetchResult.ok 201)).2.1 ≠
      PullReply.summary
        { total := 0, added := 0, already_member := 0, failed := 0, errors := [] } := by
  decide

/-- C8 (amended): on an empty store the handler returns immediately with
the dedicated no-users text message — a nothing-to-do signal distinct from
both an error and a BatchResult — leaves the store unchanged and issues no
membership-gateway calls. -/
theorem c8_empty_store_message (now : Nat) (net : String → FetchResult) :
    runPull [] now net =
      ([], PullReply.message "⚠️ No users have verified yet. There are no users to pull.", 0) :=
  rfl

/-- C9: batch admission never modifies the grant store: the store after any
run is the store before it, whatever the time and the gateway responses. -/
theorem c9_store_never_modified (store : Store) (now : Nat)
    (net : String → FetchResult) : (runPull store now net).1 = store := by
  simp only [runPull]
  split
  · rfl
  · rw [pullLoop_spec]

/-- A nonempty code string is truthy. -/
theorem strTruthy_some_of_ne (c : String) (hc : c ≠ "") :
    strTruthy (some c) = some c := by
  simp [strTruthy, hc]

/-- C4: when the provider rejects the code at the token-exchange step, the
handler responds 400 with the || chain over the provider's error fields —
in particular with the provider's own error description whenever one is
present — and the token store is left exactly as it was: no grant is
written or replaced for any identity. -/
theorem c4_exchange_failure_no_write (store : Store) (now : Nat) (c : String)
    (ed e : Option String) (uf : UserFetchResult) (rr : RoleResp) (wr : WebhookResp)
    (hc : c ≠ "") :
    (authDiscord store now (some c) (ExchangeResult.failure ed e) uf rr wr).store = store ∧
    (authDiscord store now (some c) (ExchangeResult.failure ed e) uf rr wr).response =
      AuthResponse.errorResp 400 (jsOr ed (jsOr e "Failed to exchange authorization code")) ∧
    (∀ d, strTruthy ed = some d →
      (authDiscord store now (some c) (ExchangeResult.failure ed e) uf rr wr).response =
        AuthResponse.errorResp 400 d) := by
  unfold authDiscord
  rw [strTruthy_some_of_ne c hc]
  refine ⟨rfl, rfl, ?_⟩
  intro d hd
  simp [jsOr, hd]

/-- C4 witness: a rejected code with error_description "Invalid code"
yields exactly that message in a 400 response and an unchanged (empty)
store. -/
theorem c4_exchange_failure_no_write_witness :
    (authDiscord [] 0 (some "abc") (ExchangeResult.failure (some "Invalid code") none)
        UserFetchResult.failure RoleResp.ok2xx WebhookResp.noURL).store = [] ∧
    (authDiscord [] 0 (some "abc") (ExchangeResult.failure (some "Invalid code") none)
        UserFetchResult.failure RoleResp.ok2xx WebhookResp.noURL).response =
      AuthResponse.errorResp 400 "Invalid code" := by
  have h := c4_exchange_failure_no_write [] 0 "abc" (some "Invalid code") none
    UserFetchResult.failure RoleResp.ok2xx WebhookResp.noURL (by decide)
  exact ⟨h.1, h.2.2 "Invalid code" (by decide)⟩

/-- C5: the success response body carries exactly the four fields
{id, username, avatar, email} computed from the fetched profile, and it is
the same whatever access/refresh secrets the exchange produced: the
secrets never appear in the value returned to the caller. -/
theorem c5_summary_excludes_secrets (store : Store) (now : Nat) (c : String)
    (ak rk : String) (ei : Nat) (ud : UserData) (rr : RoleResp) (wr : WebhookResp)
    (hc : c ≠ "") :
    (authDiscord store now (some c) (ExchangeResult.success ak rk ei)
        (UserFetchResult.success ud) rr wr).response =
      AuthResponse.successResp
        { id := ud.id, username := ud.username,
          avatar := deriveAvatar ud, email := ud.email } ∧
    (∀ ak2 rk2 : String, ∀ ei2 : Nat,
      (authDiscord store now (some c) (ExchangeResult.success ak2 rk2 ei2)
          (UserFetchResult.success ud) rr wr).response =
        (authDiscord store now (some c) (ExchangeResult.success ak rk ei)
          (UserFetchResult.success ud) rr wr).response) := by
  unfold authDiscord
  rw [strTruthy_some_of_ne c hc]
  exact ⟨rfl, fun _ _ _ => rfl⟩

/-- C5 witness: a concrete successful verification returns only the
four-field summary, identically for two different secret pairs. -/
theorem c5_summary_excludes_secrets_witness :
    (authDiscord [] 0 (some "abc") (ExchangeResult.success "secretA" "refreshA" 604800)
        (UserFetchResult.success
          { id := "42", username := "alice", discriminator := some "1234",
            email := some "a@b.c", avatar := some "abc", verified := true })
        RoleResp.ok2xx WebhookResp.noURL).response =
      AuthResponse.successResp
        { id := "42", username := "alice",
          avatar := deriveAvatar
            { id := "42", username := "alice", discriminator := some "1234",
              email := some "a@b.c", avatar := some "abc", verified := true },
          email := some "a@b.c" } ∧
    (authDiscord [] 0 (some "abc") (ExchangeResult.success "secretB" "refreshB" 1)
        (UserFetchResult.success
          { id := "42", username := "alice", discriminator := some "1234",
            email := some "a@b.c", avatar := some "abc", verified := true })
        RoleResp.ok2xx WebhookResp.noURL).response =
      (authDiscord [] 0 (some "abc") (ExchangeResult.success "secretA" "refreshA" 604800)
        (UserFetchResult.success
          { id := "42", username := "alice", discriminator := some "1234",
            email := some "a@b.c", avatar := some "abc", verified := true })
        RoleResp.ok2xx WebhookResp.noURL).response := by
  have h := c5_summary_excludes_secrets [] 0 "abc" "secretA" "refreshA" 604800
    { id := "42", username := "alice", discriminator := some "1234",
      email := some "a@b.c", avatar := some "abc", verified := true }
    RoleResp.ok2xx WebhookResp.noURL (by decide)
  exact ⟨h.1, h.2 "secretB" "refreshB" 1⟩

/-- C6: the claim's no-discriminator clause fails on the code: with no
avatar asset and no discriminator the derived URL embeds NaN
(parseInt(undefined) % 5), not default index 0. -/
theorem c6_avatar_derivation_counterexample :
    deriveAvatar { id := "9", username := "nodisc", discriminator := none,
                   email := none, avatar := none, verified := false } =
      "https://cdn.discordapp.com/embed/avatars/NaN.png" ∧
    "https://cdn.discordapp.com/embed/avatars/NaN.png" ≠
      "https://cdn.discordapp.com/embed/avatars/0.png" := by
  constructor
  · decide
  · decide

/-- C6 (amended): with a truthy avatar asset the result is the CDN URL
embedding the identity id and the asset id; otherwise the default avatar
index is the parsed numeric discriminator mod 5 (so "1234" gives 4), and
an account with no discriminator yields the literal NaN in the URL rather
than falling back to index 0. -/
theorem c6_avatar_derivation_amended (ud : UserData) :
    (∀ a, strTruthy ud.avatar = some a →
      deriveAvatar ud =
        "https://cdn.discordapp.com/avatars/" ++ ud.id ++ "/" ++ a ++ ".png") ∧
    (strTruthy ud.avatar = none →
      (∀ v : Int, jsParseInt ud.discriminator = JSNum.num v →
        deriveAvatar ud =
          "https://cdn.discordapp.com/embed/avatars/" ++ toString (Int.tmod v 5) ++ ".png") ∧
      (ud.discriminator = none →
        deriveAvatar ud = "https://cdn.discordapp.com/embed/avatars/NaN.png")) := by
  refine ⟨?_, ?_⟩
  · intro a ha
    unfold deriveAvatar
    rw [ha]
  · intro hn
    refine ⟨?_, ?_⟩
    · intro v hv
      unfold deriveAvatar
      rw [hn, hv]
      simp [jsRem, jsNumToString]
    · intro hd
      unfold deriveAvatar
      rw [hn, hd]
      rfl

/-- C6 witness: an avatar asset "abc" on identity "42" gives the CDN URL
embedding both, and discriminator "1234" with no asset gives default
index 4. -/
theorem c6_avatar_derivation_amended_witness :
    deriveAvatar { id := "42", username := "u", discriminator := some "1234",
                   email := none, avatar := some "abc", verified := true } =
      "https://cdn.discordapp.com/avatars/42/abc.png" ∧
    deriveAvatar { id := "42", username := "u", discriminator := some "1234",
                   email := none, avatar := none, verified := true } =
      "https://cdn.discordapp.com/embed/avatars/4.png" := by
  constructor
  · have h := (c6_avatar_derivation_amended
      { id := "42", username := "u", discriminator := some "1234",
        email := none, avatar := some "abc", verified := true }).1 "abc" (by decide)
    exact h.trans (by decide)
  · have h := ((c6_avatar_derivation_amended
      { id := "42", username := "u", discriminator := some "1234",
        email := none, avatar := none, verified := true }).2 (by decide)).1 1234 (by decide)
    exact h.trans (by decide)

/-- C7: once the exchange and the profile fetch have succeeded (the state
is persisted), the HTTP response and the stored state are identical for
any two outcomes of the detached role grant — a 403, a thrown error,
anything — and the response is still the successful four-field summary;
the role-grant outcome is recorded separately and never surfaced. -/
theorem c7_role_failure_isolated (store : Store) (now : Nat) (c : String)
    (ak rk : String) (ei : Nat) (ud : UserData) (r1 r2 : RoleResp) (wr : WebhookResp)
    (hc : c ≠ "") :
    (authDiscord store now (some c) (ExchangeResult.success ak rk ei)
        (UserFetchResult.success ud) r1 wr).response =
      (authDiscord store now (some c) (ExchangeResult.success ak rk ei)
        (UserFetchResult.success ud) r2 wr).response ∧
    (authDiscord store now (some c) (ExchangeResult.success ak rk ei)
        (UserFetchResult.success ud) r1 wr).store =
      (authDiscord store now (some c) (ExchangeResult.success ak rk ei)
        (UserFetchResult.success ud) r2 wr).store ∧
    (authDiscord store now (some c) (ExchangeResult.success ak rk ei)
        (UserFetchResult.success ud) r1 wr).response =
      AuthResponse.successResp
        { id := ud.id, username := ud.username,
          avatar := deriveAvatar ud, email := ud.email } := by
  unfold authDiscord
  rw [strTruthy_some_of_ne c hc]
  exact ⟨rfl, rfl, rfl⟩

/-- C7 witness: a simulated 403 from the gateway (which assignVerifiedRole
turns into the permission error) leaves the response and store of a
successful verification identical to the all-ok run, and the caller still
receives the profile summary. -/
theorem c7_role_failure_isolated_witness :
    (authDiscord [] 0 (some "abc") (ExchangeResult.success "sec" "ref" 604800)
        (UserFetchResult.success
          { id := "42", username := "alice", discriminator := some "1234",
            email := some "a@b.c", avatar := some "abc", verified := true })
        (RoleResp.notOk 403 none "Forbidden") WebhookResp.noURL).response =
      (authDiscord [] 0 (some "abc") (ExchangeResult.success "sec" "ref" 604800)
        (UserFetchResult.success
          { id := "42", username := "alice", discriminator := some "1234",
            email := some "a@b.c", avatar := some "abc", verified := true })
        RoleResp.ok2xx WebhookResp.noURL).response ∧
    (authDiscord [] 0 (some "abc") (ExchangeResult.success "sec" "ref" 604800)
        (UserFetchResult.success
          { id := "42", username := "alice", discriminator := some "1234",
            email := some "a@b.c", avatar := some "abc", verified := true })
        (RoleResp.notOk 403 none "Forbidden") WebhookResp.noURL).response =
      AuthResponse.successResp
        { id := "42", username := "alice",
          avatar := deriveAvatar
            { id := "42", username := "alice", discriminator := some "1234",
              email := some "a@b.c", avatar := some "abc", verified := true },
          email := some "a@b.c" } ∧
    assignVerifiedRole (RoleResp.notOk 403 none "Forbidden") =
      Except.error "Bot lacks permission to assign roles" := by
  have h := c7_role_failure_isolated [] 0 "abc" "sec" "ref" 604800
    { id := "42", username := "alice", discriminator := some "1234",
      email := some "a@b.c", avatar := some "abc", verified := true }
    (RoleResp.notOk 403 none "Forbidden") RoleResp.ok2xx WebhookResp.noURL (by decide)
  exact ⟨h.1, h.2.2, rfl⟩

/-- C10: a request whose body carries no truthy code — missing or the
empty string — is answered 400 with "No authorization code provided",
with zero provider calls, an unchanged store, and neither side effect
scheduled. -/
theorem c10_missing_code_guard (store : Store) (now : Nat) (code : Option String)
    (exch : ExchangeResult) (uf : UserFetchResult) (rr : RoleResp) (wr : WebhookResp)
    (hfalsy : strTruthy code = none) :
    authDiscord store now code exch uf rr wr =
      { store := store,
        response := AuthResponse.errorResp 400 "No authorization code provided",
        providerCalls := 0, roleOutcome := none, webhookOutcome := none } := by
  unfold authDiscord
  rw [hfalsy]

/-- C10 witness: a body with no code at all is rejected as claimed even
when the provider would have accepted the exchange. -/
theorem c10_missing_code_guard_witness :
    authDiscord [] 0 none (ExchangeResult.success "sec" "ref" 604800)
        (UserFetchResult.success
          { id := "42", username := "alice", discriminator := some "1234",
            email := none, avatar := none, verified := true })
        RoleResp.ok2xx WebhookResp.noURL =
      { store := [],
        response := AuthResponse.errorResp 400 "No authorization code provided",
        providerCalls := 0, roleOutcome := none, webhookOutcome := none } :=
  c10_missing_code_guard [] 0 none (ExchangeResult.success "sec" "ref" 604800)
    (UserFetchResult.success
      { id := "42", username := "alice", discriminator := some "1234",
        email := none, avatar := none, verified := true })
    RoleResp.ok2xx WebhookResp.noURL (by decide)
